import Mathlib

/-!
Shallow embedding of `appveyor_artifacts.py` (build location, job polling,
artifact resolution and input validation) together with theorems checking the
natural-language specification against it.

Python strings are embedded as `String`, Python `None`-or-string values as
`Option String`, and Python truthiness of such values by `pyTruthy`.  Machine
time, logging and the network transport are abstracted: remote responses are
supplied as explicit data (functions from query index to response), and each
embedded operation that performs network round trips also reports how many
queries it issued, so that "no network call is made" is a provable statement.
-/

/-- Truthiness of a Python value that is either `None` or a string:
`None` and the empty string are falsy, every other string is truthy. -/
def pyTruthy : Option String → Bool
  | none => false
  | some s => s != ""

/-- The module constant `SLEEP_FOR = 5`: seconds slept between poll iterations
and between build-location attempts. -/
def SLEEP_FOR : Nat := 5

/-- The configuration dictionary produced by `get_arguments` (field order as in
the `config = dict(...)` literal).  All string fields default to `''` when the
corresponding option is absent. -/
structure Config where
  always_job_dirs : Bool
  commit : String
  dir : String
  job_name : String
  no_job_dirs : String
  owner : String
  pull_request : String
  repo : String
  tag : String
  timeout : String
deriving Repr, DecidableEq

/-- REGEX_COMMIT = `[0-9a-f]` repeated 7 to 40 times, anchored at both ends
(the full string must match; `re.match` of the anchored pattern). -/
def matchesCommit (s : String) : Bool :=
  decide (7 ≤ s.length) && decide (s.length ≤ 40) &&
    s.data.all (fun c => ('0' ≤ c && c ≤ '9') || ('a' ≤ c && c ≤ 'f'))

/-- REGEX_GENERAL = one or more of `[0-9a-zA-Z._-]`, anchored at both ends:
the string is non-empty and every character is alphanumeric, `.`, `_` or `-`. -/
def matchesGeneral (s : String) : Bool :=
  s != "" && s.data.all (fun c => c.isAlphanum || c == '.' || c == '_' || c == '-')

/-- Python `str.isdigit()` restricted to ASCII: non-empty and all characters
are decimal digits. -/
def isDigits (s : String) : Bool :=
  s != "" && s.data.all Char.isDigit

/-- The `validate(config)` function: the sequence of checks in source order,
each raising `HandledError` (embedded as `.error ()`) when its condition
holds.  The filesystem check `os.path.isdir` is abstracted as the oracle
`isdir`. -/
def validate (cfg : Config) (isdir : String → Bool) : Except Unit Unit :=
  if cfg.always_job_dirs && cfg.no_job_dirs != "" then .error ()
  else if cfg.commit != "" && !matchesCommit cfg.commit then .error ()
  else if cfg.dir != "" && !isdir cfg.dir then .error ()
  else if !(cfg.no_job_dirs == "" || cfg.no_job_dirs == "rename" ||
            cfg.no_job_dirs == "overwrite" || cfg.no_job_dirs == "skip") then .error ()
  else if cfg.owner == "" || !matchesGeneral cfg.owner then .error ()
  else if cfg.pull_request != "" && !isDigits cfg.pull_request then .error ()
  else if cfg.repo == "" || !matchesGeneral cfg.repo then .error ()
  else if cfg.tag != "" && !matchesGeneral cfg.tag then .error ()
  else if cfg.timeout != "" && !isDigits cfg.timeout then .error ()
  else .ok ()

/-- Result of `response.json()` as far as `query_api` inspects it: a JSON
object carrying an optional `message` field, or some non-object JSON value. -/
inductive JVal where
  | dict (message : Option String)
  | nondict
deriving Repr, DecidableEq

/-- An HTTP response as `query_api` observes it.  `timedOut` embeds the
`requests` timeout exceptions; `json` is `none` when the body does not parse
as JSON (`response.json()` raises `ValueError`). -/
structure Response where
  timedOut : Bool
  ok : Bool
  status : Nat
  body : String
  json : Option JVal
deriving Repr, DecidableEq

/-- Outcomes of `query_api` other than a parsed JSON reply.  The first four
are the `HandledError` paths, distinguished here by the log message they
produce.  The last two embed exceptions that escape `query_api` unhandled:
on a non-2xx response, `response.json()` at the `message` extraction is
outside any `try`, so a body that is not JSON raises `ValueError` to the
caller, and a JSON body that is not an object makes `.get` raise
`AttributeError`. -/
inductive QErr where
  | transportTimeout
  | httpStatus (status : Nat) (message : String)
  | httpUnknown (status : Nat) (body : String)
  | parseError (body : String)
  | uncaughtValueError (body : String)
  | uncaughtAttributeError
deriving Repr, DecidableEq

/-- The `query_api(endpoint)` function applied to the response the remote
returns for that endpoint. -/
def query_api (r : Response) : Except QErr JVal :=
  if r.timedOut then .error .transportTimeout
  else if !r.ok then
    match r.json with
    | none => .error (.uncaughtValueError r.body)
    | some .nondict => .error .uncaughtAttributeError
    | some (.dict m) =>
      match m with
      | some msg =>
        if msg != "" then .error (.httpStatus r.status msg)
        else .error (.httpUnknown r.status r.body)
      | none => .error (.httpUnknown r.status r.body)
  else
    match r.json with
    | some j => .ok j
    | none => .error (.parseError r.body)

/-- A build record from the history reply: `version` and `commitId` are always
present, `tag` and `pullRequestId` may be absent (`build.get(...)` yields
`None`). -/
structure Build where
  version : String
  commitId : String
  tag : Option String
  pullRequestId : Option String
deriving Repr, DecidableEq

/-- The per-build match test of `get_build_version`'s scan loop: the
disjunction of the three `if`/`elif` conditions, in their source order
(tag, then pull request, then commit). -/
def buildMatches (cfg : Config) (b : Build) : Bool :=
  (cfg.tag != "" && b.tag == some cfg.tag) ||
  (cfg.pull_request != "" && b.pullRequestId == some cfg.pull_request) ||
  cfg.commit == b.commitId

/-- The scan loop of `get_build_version` over the `builds` array of the
history reply: for each build in returned order, try the tag test, then the
pull-request test, then the commit test; on the first build where one of them
holds, return that build's `version`; if none matches, return `None`. -/
def get_build_version (cfg : Config) : List Build → Option String
  | [] => none
  | b :: rest =>
    if cfg.tag != "" && b.tag == some cfg.tag then some b.version
    else if cfg.pull_request != "" && b.pullRequestId == some cfg.pull_request then some b.version
    else if cfg.commit == b.commitId then some b.version
    else get_build_version cfg rest

/-- The `for _ in range(3)` build-location loop in `main`: `fetch k` is the
result of the `k`-th `get_build_version` call.  Returns the final value of
`build_version` (kept from the last attempt when no attempt is truthy) and
the number of history queries issued. -/
def locate_build (fetch : Nat → Option String) : Option String × Nat :=
  if pyTruthy (fetch 0) then (fetch 0, 1)
  else if pyTruthy (fetch 1) then (fetch 1, 2)
  else (fetch 2, 3)

/-- The failure `main` raises when the three build-location attempts are
exhausted: the log message is a timeout ("Timed out waiting for job to be
queued or build not found."), so this is a Timeout-class failure, distinct
from the per-attempt `None` (not-found, transient) results of
`get_build_version`. -/
inductive LocErr where
  | queuedTimeout
deriving Repr, DecidableEq

/-- The `if not build_version: raise HandledError` step after the
build-location loop, paired with the query count of the loop. -/
def locate_outcome (fetch : Nat → Option String) : Except LocErr String × Nat :=
  if pyTruthy (locate_build fetch).1 then
    (.ok (((locate_build fetch).1).getD ""), (locate_build fetch).2)
  else (.error .queuedTimeout, (locate_build fetch).2)

/-- A job record from the build reply (`build.jobs` array entries). -/
structure RemoteJob where
  jobId : String
  name : String
  status : String
deriving Repr, DecidableEq

/-- Loop body of `get_job_ids`: accumulate `(jobId, status)` pairs; when a
job-name filter is set and matches, return that single job immediately; after
the loop, a set filter that matched nothing raises `HandledError`. -/
def get_job_ids_go (job_name : String) (acc : List (String × String)) :
    List RemoteJob → Except Unit (List (String × String))
  | [] => if job_name != "" then .error () else .ok acc
  | j :: rest =>
    if job_name != "" && job_name == j.name then .ok [(j.jobId, j.status)]
    else get_job_ids_go job_name (acc ++ [(j.jobId, j.status)]) rest

/-- The `get_job_ids` function on a well-formed build reply (the `jobs`
array). -/
def get_job_ids (job_name : String) (jobs : List RemoteJob) :
    Except Unit (List (String × String)) :=
  get_job_ids_go job_name [] jobs

/-- What one iteration of the polling loop decides from the job listing,
before the timeout check.  `unknownStatusTypeError` embeds the `else` branch:
there `log.error(..., statuses - valid_statuses)` evaluates `set - list`,
which raises `TypeError` before `raise HandledError` is reached (in Python 2
and Python 3 alike). -/
inductive StepResult where
  | jobFailed (jobId : Option String)
  | success (jobs : List (String × String))
  | keepPolling
  | unknownStatusTypeError
deriving Repr, DecidableEq

/-- The expression `[i[0] for i in job_ids if i[1] == 'failed'][0]`: the job
id of the first job whose status is `failed` (`none` embeds the `IndexError`
of indexing an empty list, unreachable under the guard). -/
def firstFailedId (jobs : List (String × String)) : Option String :=
  ((jobs.filter (fun j => j.2 == "failed")).map Prod.fst).head?

/-- The status checks of one polling iteration, in source order.  `statuses`
is the Python set of the jobs' statuses, so membership in it is membership in
the status list, and `statuses == set(['success'])` holds exactly when the
list is non-empty and every status is `"success"`. -/
def pollDecision (jobs : List (String × String)) : StepResult :=
  if (jobs.map Prod.snd).contains "failed" then .jobFailed (firstFailedId jobs)
  else if !(jobs.map Prod.snd).isEmpty && (jobs.map Prod.snd).all (fun s => s == "success") then
    .success jobs
  else if (jobs.map Prod.snd).contains "running" then .keepPolling
  else if (jobs.map Prod.snd).contains "queued" then .keepPolling
  else .unknownStatusTypeError

/-- Terminal outcomes of the embedded `main`.  `timeoutCompareTypeError`
embeds the timeout check `time.time() - start_time >= config['timeout']`:
`config['timeout']` is still the string from the command line (it is never
converted to a number), so in Python 3 the comparison of a float with a
string raises `TypeError` the first time the check runs. -/
inductive MainErr where
  | validationFailed
  | queuedTimeout
  | jobNameNotFound
  | jobFailed (jobId : Option String)
  | unknownStatusTypeError
  | timeoutCompareTypeError
  | outOfFuel
deriving Repr, DecidableEq

/-- The `while True` polling loop of `main`, given fuel (the real loop is
unbounded; every theorem below terminates within its fuel).  `jobsAt n` is
the build reply's job list at iteration `n`; each iteration issues exactly
one build query.  When the decision is to keep polling and a timeout string
was supplied, the Python 3 run dies with `TypeError` at the float-vs-string
comparison; with no timeout supplied the check is skipped and the loop sleeps
and repeats. -/
def pollRun (timeout job_name : String) (jobsAt : Nat → List RemoteJob) :
    Nat → Nat → Except MainErr (List (String × String)) × Nat
  | 0, _ => (.error .outOfFuel, 0)
  | fuel + 1, n =>
    match get_job_ids job_name (jobsAt n) with
    | .error _ => (.error .jobNameNotFound, 1)
    | .ok pairs =>
      match pollDecision pairs with
      | .jobFailed j => (.error (.jobFailed j), 1)
      | .success js => (.ok js, 1)
      | .unknownStatusTypeError => (.error .unknownStatusTypeError, 1)
      | .keepPolling =>
        if timeout != "" then (.error .timeoutCompareTypeError, 1)
        else
          match pollRun timeout job_name jobsAt fuel (n + 1) with
          | (r, c) => (r, c + 1)

/-- One entry of the artifact listing reply for a job (only `fileName` is
read). -/
structure ArtifactEntry where
  fileName : String
deriving Repr, DecidableEq

/-- The `get_artifacts_urls` function: start from an empty list and, for each
job id in order, append one `(job, fileName)` pair per entry of that job's
artifact listing.  `listing j` is the artifact listing the remote returns for
job `j`. -/
def get_artifacts_urls (listing : String → List ArtifactEntry)
    (job_ids : List String) : List (String × String) :=
  job_ids.foldl (fun acc job => acc ++ (listing job).map (fun a => (job, a.fileName))) []

/-- The remote service as the embedded `main` observes it: the history reply
per build-location attempt, the job listing per poll iteration and the
artifact listing per job (all assumed transport-successful and well-formed;
`query_api`'s own failure modes are studied separately). -/
structure Remote where
  historyAt : Nat → List Build
  jobsAt : Nat → List RemoteJob
  listing : String → List ArtifactEntry

/-- The `main(config)` pipeline: validate, locate the build with the bounded
retry, poll the jobs, resolve artifacts.  The second component counts every
network query issued (history, build and artifact queries). -/
def run_main (cfg : Config) (isdir : String → Bool) (remote : Remote) (fuel : Nat) :
    Except MainErr (List (String × String)) × Nat :=
  match validate cfg isdir with
  | .error _ => (.error .validationFailed, 0)
  | .ok _ =>
    match locate_outcome (fun k => get_build_version cfg (remote.historyAt k)) with
    | (.error _, c) => (.error .queuedTimeout, c)
    | (.ok _, c) =>
      match pollRun cfg.timeout cfg.job_name remote.jobsAt fuel 0 with
      | (.error e, pc) => (.error e, c + pc)
      | (.ok pairs, pc) =>
        (.ok (get_artifacts_urls remote.listing (pairs.map Prod.fst)),
         c + pc + (pairs.map Prod.fst).length)

/-! ## Helper lemmas -/

/-- Membership in the Python status set is membership in the status list. -/
lemma contains_iff_mem (l : List String) (s : String) :
    (l.contains s = true) ↔ s ∈ l := by
  simp [List.contains, List.elem_iff]

/-- Accumulator form of the artifact loop equals a flat map. -/
lemma foldl_append_flatMap {α β : Type} (g : α → List β) :
    ∀ (l : List α) (acc : List β),
      l.foldl (fun acc x => acc ++ g x) acc = acc ++ l.flatMap g := by
  intro l
  induction l with
  | nil => intro acc; simp
  | cons a t ih => intro acc; simp [List.foldl_cons, ih, List.flatMap_cons]

/-- The build-location loop always issues between one and three history
queries. -/
lemma locate_build_queries (fetch : Nat → Option String) :
    1 ≤ (locate_build fetch).2 ∧ (locate_build fetch).2 ≤ 3 := by
  unfold locate_build; split_ifs <;> simp

/-- The query count of `locate_outcome` is that of the loop. -/
lemma locate_outcome_queries (fetch : Nat → Option String) :
    (locate_outcome fetch).2 = (locate_build fetch).2 := by
  unfold locate_outcome; split_ifs <;> rfl

/-- Once validation succeeds, `run_main` issues at least one network query
(the first history query is unconditional). -/
lemma run_main_queries_pos (cfg : Config) (isdir : String → Bool)
    (remote : Remote) (fuel : Nat) (hv : validate cfg isdir = .ok ()) :
    1 ≤ (run_main cfg isdir remote fuel).2 := by
  unfold run_main
  rw [hv]
  rcases hE : locate_outcome (fun k => get_build_version cfg (remote.historyAt k)) with ⟨r, c⟩
  have hc : 1 ≤ c := by
    have h := locate_outcome_queries (fun k => get_build_version cfg (remote.historyAt k))
    rw [hE] at h
    have := (locate_build_queries (fun k => get_build_version cfg (remote.historyAt k))).1
    simpa [h.symm] using this
  cases r with
  | error e => simpa using hc
  | ok v =>
    rcases hP : pollRun cfg.timeout cfg.job_name remote.jobsAt fuel 0 with ⟨pr, pc⟩
    cases pr with
    | error e => simp; omega
    | ok pairs => simp; omega

/-! ## Claim theorems -/

/-- C1 (counterexample): the identity carries tag "v1" and commit "1234567";
build #1 (version "38") matches only by commit, build #2 (version "39")
carries tag "v1".  The claim says build #2 is selected; the code returns
build #1's version "38", because the scan is per build in history order and
an earlier build matching by commit wins over a later build matching by
tag. -/
theorem c1_counterexample :
    get_build_version
      ⟨false, "1234567", "", "", "", "o", "", "r", "v1", ""⟩
      [⟨"38", "1234567", some "other", none⟩, ⟨"39", "zzzzzzz", some "v1", none⟩]
      = some "38" ∧
    get_build_version
      ⟨false, "1234567", "", "", "", "o", "", "r", "v1", ""⟩
      [⟨"38", "1234567", some "other", none⟩, ⟨"39", "zzzzzzz", some "v1", none⟩]
      ≠ some "39" := by
  constructor
  · rfl
  · decide

/-- C1 (amended): builds are scanned in returned order and the first build
whose per-build test (tag, else pull request, else commit) succeeds is
selected; tag precedence over commit holds only within a single build, and
across builds scan order alone decides. -/
theorem c1_first_match_wins (cfg : Config) (builds : List Build) :
    get_build_version cfg builds = (builds.find? (buildMatches cfg)).map Build.version := by
  induction builds with
  | nil => rfl
  | cons b rest ih =>
    by_cases h1 : (cfg.tag != "" && b.tag == some cfg.tag) = true
    · have hm : buildMatches cfg b = true := by simp [buildMatches, h1]
      simp [get_build_version, h1, List.find?_cons_of_pos _ hm]
    · by_cases h2 : (cfg.pull_request != "" && b.pullRequestId == some cfg.pull_request) = true
      · have hm : buildMatches cfg b = true := by simp [buildMatches, h2]
        simp [get_build_version, h1, h2, List.find?_cons_of_pos _ hm]
      · by_cases h3 : (cfg.commit == b.commitId) = true
        · have hm : buildMatches cfg b = true := by simp [buildMatches, h3]
          simp [get_build_version, h1, h2, h3, List.find?_cons_of_pos _ hm]
        · have hm : ¬ buildMatches cfg b = true := by simp [buildMatches, h1, h2, h3]
          simp [get_build_version, h1, h2, h3, List.find?_cons_of_neg _ hm, ih]

/-- C2 (code bug): with all jobs running and the supplied timeout string "1",
the first poll iteration reaches the check
`time.time() - start_time >= config['timeout']` with `config['timeout']`
still a string, so Python 3 raises `TypeError` there — after exactly one
build query, before any second poll, and without ever producing the
PollingTimeout failure the claim describes. -/
theorem c2_timeout_compare_type_error :
    pollRun "1" "" (fun _ => [⟨"aid", "na", "running"⟩, ⟨"bid", "nb", "running"⟩]) 5 0
      = (.error .timeoutCompareTypeError, 1) := rfl

/-- C3 (code bug): on the job listing `[("a","weird")]` the polling loop takes
the unknown-status branch, whose log call evaluates `statuses -
valid_statuses` — a set minus a list — raising `TypeError` before `raise
HandledError` runs, so the run dies with `TypeError` instead of the
UnknownStatus failure the claim describes. -/
theorem c3_unknown_status_type_error :
    pollDecision [("a", "weird")] = .unknownStatusTypeError ∧
    pollRun "" "" (fun _ => [⟨"a", "n", "weird"⟩]) 3 0
      = (.error .unknownStatusTypeError, 1) := ⟨rfl, rfl⟩

/-- C4 (code bug): a non-2xx response with a JSON `message` does surface the
HTTP-status failure carrying that message, and a 2xx response with a
non-JSON body does surface the handled parse failure; but a non-2xx response
whose body is not JSON makes `response.json()` raise `ValueError` outside any
`try`, crashing the caller with an unhandled exception, contrary to the
claim. -/
theorem c4_non2xx_badjson_uncaught :
    query_api ⟨false, false, 404, "body404", some (.dict (some "X"))⟩
      = .error (.httpStatus 404 "X") ∧
    query_api ⟨false, true, 200, "garbage", none⟩ = .error (.parseError "garbage") ∧
    query_api ⟨false, false, 500, "garbage", none⟩ = .error (.uncaughtValueError "garbage") :=
  ⟨rfl, rfl, rfl⟩

/-- C5: whenever some job in the listing has status `failed`, that iteration
fails immediately with the JobFailed outcome carrying the identifier of one
failing job (the first one in listing order). -/
theorem c5_failed_job_first (jobs : List (String × String))
    (h : ∃ j ∈ jobs, j.2 = "failed") :
    ∃ j ∈ jobs, j.2 = "failed" ∧ pollDecision jobs = .jobFailed (some j.1) := by
  obtain ⟨j0, hj0, hst⟩ := h
  have hcont : ((jobs.map Prod.snd).contains "failed") = true := by
    rw [contains_iff_mem, List.mem_map]
    exact ⟨j0, hj0, hst⟩
  have hjf : j0 ∈ jobs.filter (fun j => j.2 == "failed") := by
    rw [List.mem_filter]; exact ⟨hj0, by simp [hst]⟩
  cases hl : jobs.filter (fun j => j.2 == "failed") with
  | nil => rw [hl] at hjf; cases hjf
  | cons jh t =>
    have hjh : jh ∈ jobs ∧ (jh.2 == "failed") = true := by
      have hmem : jh ∈ jobs.filter (fun j => j.2 == "failed") := by
        rw [hl]; exact List.mem_cons_self _ _
      exact List.mem_filter.mp hmem
    refine ⟨jh, hjh.1, by simpa using hjh.2, ?_⟩
    unfold pollDecision
    rw [if_pos hcont]
    simp [firstFailedId, hl]

/-- C5 (witness): on `[("a","failed"),("b","running")]` the hypothesis holds
and the iteration fails with JobFailed for job "a". -/
theorem c5_failed_job_first_witness :
    (∃ j ∈ ([("a", "failed"), ("b", "running")] : List (String × String)), j.2 = "failed") ∧
    (∃ j ∈ ([("a", "failed"), ("b", "running")] : List (String × String)), j.2 = "failed" ∧
      pollDecision [("a", "failed"), ("b", "running")] = .jobFailed (some j.1)) ∧
    pollDecision [("a", "failed"), ("b", "running")] = .jobFailed (some "a") :=
  ⟨⟨("a", "failed"), by decide, rfl⟩,
   c5_failed_job_first _ ⟨("a", "failed"), by decide, rfl⟩,
   rfl⟩

/-- C6 (counterexample): the empty job listing vacuously satisfies "every job
has status success", but the code compares the empty status set against
`set(['success'])`, misses, and falls into the unknown-status branch, whose
log call raises `TypeError` — it does not terminate successfully. -/
theorem c6_counterexample_empty :
    (∀ j ∈ ([] : List (String × String)), j.2 = "success") ∧
    pollDecision ([] : List (String × String)) ≠ .success [] := by
  constructor
  · intro j hj; cases hj
  · decide

/-- C6 (amended): for every NON-EMPTY job listing in which every job has
status success, the iteration terminates successfully and returns the full
job list. -/
theorem c6_all_success_returns_jobs (jobs : List (String × String))
    (hne : jobs ≠ []) (hsucc : ∀ j ∈ jobs, j.2 = "success") :
    pollDecision jobs = .success jobs := by
  have hmem : ∀ s ∈ jobs.map Prod.snd, s = "success" := by
    intro s hs
    obtain ⟨j, hj, rfl⟩ := List.mem_map.mp hs
    exact hsucc j hj
  have hfail : ((jobs.map Prod.snd).contains "failed") = false := by
    rw [Bool.eq_false_iff]
    intro hc
    exact absurd (hmem _ ((contains_iff_mem _ _).mp hc)) (by decide)
  have hne' : ((jobs.map Prod.snd).isEmpty) = false := by
    cases jobs with
    | nil => exact absurd rfl hne
    | cons a t => rfl
  have hall : ((jobs.map Prod.snd).all (fun s => s == "success")) = true := by
    rw [List.all_eq_true]
    intro s hs
    simp [hmem s hs]
  unfold pollDecision
  rw [if_neg (by simp only [hfail]; exact Bool.false_ne_true),
      if_pos (by simp only [hne', hall]; rfl)]

/-- C6 (witness): on `[("a","success"),("b","success")]` both hypotheses hold
and both jobs are returned with no error. -/
theorem c6_all_success_witness :
    (([("a", "success"), ("b", "success")] : List (String × String)) ≠ []) ∧
    (∀ j ∈ ([("a", "success"), ("b", "success")] : List (String × String)), j.2 = "success") ∧
    pollDecision [("a", "success"), ("b", "success")]
      = .success [("a", "success"), ("b", "success")] :=
  ⟨by decide, by decide,
   c6_all_success_returns_jobs _ (by decide) (by decide)⟩

/-- C7: the build-location retry issues at most 3 history queries (so no
fourth query is ever made), with the fixed SLEEP_FOR = 5 second spacing, and
when all three attempts return no truthy match the run fails with the
Timeout-class `queuedTimeout` error (the per-attempt misses being the
transient not-found `none` results), after exactly 3 queries. -/
theorem c7_bounded_retry (fetch : Nat → Option String) :
    (locate_build fetch).2 ≤ 3 ∧ SLEEP_FOR = 5 ∧
    ((∀ k, k < 3 → pyTruthy (fetch k) = false) →
      locate_outcome fetch = (.error .queuedTimeout, 3)) := by
  refine ⟨(locate_build_queries fetch).2, rfl, ?_⟩
  intro h
  have h0 := h 0 (by omega)
  have h1 := h 1 (by omega)
  have h2 := h 2 (by omega)
  have hb : locate_build fetch = (fetch 2, 3) := by
    simp [locate_build, h0, h1]
  unfold locate_outcome
  rw [hb]
  simp [h2]

/-- C7 (witness): with a remote that never shows the build, the loop stops
after exactly 3 history queries with the Timeout-class failure. -/
theorem c7_bounded_retry_witness :
    (locate_build (fun _ => (none : Option String))).2 ≤ 3 ∧
    (∀ k, k < 3 → pyTruthy ((fun _ => (none : Option String)) k) = false) ∧
    locate_outcome (fun _ => (none : Option String)) = (.error .queuedTimeout, 3) :=
  ⟨(c7_bounded_retry (fun _ => none)).1,
   fun _ _ => rfl,
   (c7_bounded_retry (fun _ => none)).2.2 (fun _ _ => rfl)⟩

/-- C8: the artifact resolver returns exactly one (job id, file name) pair
per artifact entry of each job, preserving job iteration order and within-job
listing order — it equals the order-preserving flat map; in particular the
empty job-id list yields the empty list, and a job with an empty listing
contributes no pairs. -/
theorem c8_artifacts_flatten (listing : String → List ArtifactEntry)
    (job_ids : List String) :
    get_artifacts_urls listing job_ids
      = job_ids.flatMap (fun job => (listing job).map (fun a => (job, a.fileName))) := by
  simpa using foldl_append_flatMap (fun job => (listing job).map (fun a => (job, a.fileName)))
    job_ids []

/-- C9: a configuration with a missing owner or repo, or with a non-empty
commit, tag or pull-request field that fails its format pattern, fails during
validation, and the run issues zero network queries. -/
theorem c9_validation_blocks_network (cfg : Config) (isdir : String → Bool)
    (remote : Remote) (fuel : Nat)
    (h : cfg.owner = "" ∨ cfg.repo = "" ∨
         (cfg.commit ≠ "" ∧ matchesCommit cfg.commit = false) ∨
         (cfg.tag ≠ "" ∧ matchesGeneral cfg.tag = false) ∨
         (cfg.pull_request ≠ "" ∧ isDigits cfg.pull_request = false)) :
    validate cfg isdir = .error () ∧
    run_main cfg isdir remote fuel = (.error .validationFailed, 0) := by
  have hv : validate cfg isdir = .error () := by
    unfold validate
    split_ifs <;>
      first
      | rfl
      | (exfalso
         rcases h with h | h | ⟨ha, hb⟩ | ⟨ha, hb⟩ | ⟨ha, hb⟩ <;> simp_all)
  refine ⟨hv, ?_⟩
  unfold run_main
  rw [hv]

/-- C9 (witness): a configuration whose owner is empty fails validation and
`run_main` makes no network query at all. -/
theorem c9_validation_blocks_network_witness :
    ((⟨false, "", "", "", "", "", "", "r", "", ""⟩ : Config).owner = "" ∨
     (⟨false, "", "", "", "", "", "", "r", "", ""⟩ : Config).repo = "" ∨
     ((⟨false, "", "", "", "", "", "", "r", "", ""⟩ : Config).commit ≠ "" ∧
       matchesCommit (⟨false, "", "", "", "", "", "", "r", "", ""⟩ : Config).commit = false) ∨
     ((⟨false, "", "", "", "", "", "", "r", "", ""⟩ : Config).tag ≠ "" ∧
       matchesGeneral (⟨false, "", "", "", "", "", "", "r", "", ""⟩ : Config).tag = false) ∨
     ((⟨false, "", "", "", "", "", "", "r", "", ""⟩ : Config).pull_request ≠ "" ∧
       isDigits (⟨false, "", "", "", "", "", "", "r", "", ""⟩ : Config).pull_request = false)) ∧
    validate ⟨false, "", "", "", "", "", "", "r", "", ""⟩ (fun _ => false) = .error () ∧
    run_main ⟨false, "", "", "", "", "", "", "r", "", ""⟩ (fun _ => false)
      ⟨fun _ => [], fun _ => [], fun _ => []⟩ 1 = (.error .validationFailed, 0) :=
  ⟨Or.inl rfl,
   c9_validation_blocks_network _ _ ⟨fun _ => [], fun _ => [], fun _ => []⟩ 1 (Or.inl rfl)⟩

/-- C10: a configuration whose commit, tag and pull-request fields are all
empty passes validation whenever owner and repo match the general pattern
(identity fields are checked only when non-empty), and the run then proceeds
to build location, issuing at least one history query. -/
theorem c10_identityless_passes (owner repo : String) (isdir : String → Bool)
    (remote : Remote) (fuel : Nat)
    (h1 : matchesGeneral owner = true) (h2 : matchesGeneral repo = true) :
    validate ⟨false, "", "", "", "", owner, "", repo, "", ""⟩ isdir = .ok () ∧
    1 ≤ (run_main ⟨false, "", "", "", "", owner, "", repo, "", ""⟩ isdir remote fuel).2 := by
  have ho : (owner == "") = false := by
    rw [beq_eq_false_iff_ne]
    intro he
    rw [he] at h1
    exact absurd h1 (by decide)
  have hr : (repo == "") = false := by
    rw [beq_eq_false_iff_ne]
    intro he
    rw [he] at h2
    exact absurd h2 (by decide)
  have hv : validate ⟨false, "", "", "", "", owner, "", repo, "", ""⟩ isdir = .ok () := by
    simp [validate, ho, hr, h1, h2]
  exact ⟨hv, run_main_queries_pos _ _ _ _ hv⟩

/-- C10 (witness): owner "o" and repo "r" with all identity fields empty pass
validation and the run reaches the first history query. -/
theorem c10_identityless_passes_witness :
    matchesGeneral "o" = true ∧ matchesGeneral "r" = true ∧
    validate ⟨false, "", "", "", "", "o", "", "r", "", ""⟩ (fun _ => false) = .ok () ∧
    1 ≤ (run_main ⟨false, "", "", "", "", "o", "", "r", "", ""⟩ (fun _ => false)
          ⟨fun _ => [], fun _ => [], fun _ => []⟩ 1).2 :=
  ⟨by decide, by decide,
   (c10_identityless_passes "o" "r" (fun _ => false)
     ⟨fun _ => [], fun _ => [], fun _ => []⟩ 1 (by decide) (by decide)).1,
   (c10_identityless_passes "o" "r" (fun _ => false)
     ⟨fun _ => [], fun _ => [], fun _ => []⟩ 1 (by decide) (by decide)).2⟩
